import Mathlib

/-!
Shallow embedding of the Job-Application-Agent repository (two Streamlit
variants, `app2.py` and `app3.py`) and proofs about its extraction and
pipeline behaviour.

External libraries (UTF-8 decoding, PyPDF2, python-docx, the LLM client)
are modelled as uninterpreted data carried by the uploaded file / as a
generation capability passed to the pipeline.  Python exceptions are
modelled with `Except String` (the `String` is `str(e)`, the message the
callers interpolate into their error displays).  Python string methods
used by the code (`lower`, `endswith`, `startswith`, `strip`) are modelled
as character-list operations so that they evaluate on concrete inputs.
-/

/-- Model of Python `str.lower()` (character-wise lower-casing). -/
def strLower (s : String) : String := ⟨s.data.map Char.toLower⟩

/-- Model of Python `s.endswith(t)`. -/
def strEndsWith (s t : String) : Bool := t.data.isSuffixOf s.data

/-- Model of Python `s.startswith(t)`. -/
def strStartsWith (s t : String) : Bool := t.data.isPrefixOf s.data

/-- Model of Python `s.strip()`: remove leading and trailing whitespace. -/
def pyStrip (s : String) : String :=
  ⟨((s.data.dropWhile Char.isWhitespace).reverse.dropWhile Char.isWhitespace).reverse⟩

/-- What the three external parsers would do with an uploaded file's bytes.
`utf8` models `bytes.decode("utf-8")` (error = `UnicodeDecodeError`),
`pdfPages` models `PyPDF2.PdfReader(...).pages` with each page's
`extract_text()` result (`none` models Python `None`; an `error` models
`PdfReader` raising on a corrupt stream), and `docxParas` models the
paragraph texts of `docx.Document(...)` (an `error` models `docx.Document`
raising on a corrupt stream). -/
structure FileData where
  utf8 : Except String String
  pdfPages : Except String (List (Option String))
  docxParas : Except String (List String)

/-- An uploaded file as Streamlit hands it over: a filename plus bytes
(represented through the parsers' view of those bytes). -/
structure UploadedFile where
  name : String
  content : FileData

/-- The exception that escapes `extract_text` in `app2.py`, tagged with
which library raised and carrying `str(e)`. -/
inductive ExtractErr where
  | decodeError (msg : String)
  | pdfError (msg : String)
  | docxError (msg : String)
deriving DecidableEq

/-- The `str(e)` text the `app2.py` caller interpolates into its
`"Error reading ..."` message. -/
def ExtractErr.message : ExtractErr → String
  | .decodeError m => m
  | .pdfError m => m
  | .docxError m => m

/-- Embedding of `extract_text` of `app2.py` (lines 11-29).  Branches on the format tag:
`txt`/`md` decode as UTF-8; `pdf` folds `text += page.extract_text() or ""`
over the pages; `docx` joins paragraph texts with newlines; any other tag
returns the empty string.  A library exception propagates to the caller,
modelled as `Except.error`. -/
def extract_text_app2 (file : FileData) (file_type : String) :
    Except ExtractErr String :=
  if file_type = "txt" ∨ file_type = "md" then
    match file.utf8 with
    | .ok s => .ok s
    | .error m => .error (.decodeError m)
  else if file_type = "pdf" then
    match file.pdfPages with
    | .ok pages => .ok (pages.foldl (fun acc p => acc ++ p.getD "") "")
    | .error m => .error (.pdfError m)
  else if file_type = "docx" then
    match file.docxParas with
    | .ok paras => .ok (String.intercalate "\n" paras)
    | .error m => .error (.docxError m)
  else
    .ok ""

/-- Embedding of `extract_text` of `app2.py` with its on-disk temporary file tracked.
The `docx` branch writes the bytes to `NamedTemporaryFile(delete=False)`,
parses with `docx.Document(tmp_path)`, and only then calls
`os.remove(tmp_path)`; when parsing raises, the `os.remove` line is never
reached.  The second component records whether the temporary file still
exists on disk at the moment the call returns (normally or by exception). -/
def extract_text_app2_fs (file : FileData) (file_type : String) :
    Except ExtractErr String × Bool :=
  if file_type = "txt" ∨ file_type = "md" then
    (match file.utf8 with
     | .ok s => .ok s
     | .error m => .error (.decodeError m), false)
  else if file_type = "pdf" then
    (match file.pdfPages with
     | .ok pages => .ok (pages.foldl (fun acc p => acc ++ p.getD "") "")
     | .error m => .error (.pdfError m), false)
  else if file_type = "docx" then
    match file.docxParas with
    | .ok paras => (.ok (String.intercalate "\n" paras), false)
    | .error m => (.error (.docxError m), true)
  else
    (.ok "", false)

/-- Embedding of `extract_text` of `app3.py` (lines 10-30).  The whole body sits in a
`try`; any exception is caught and returned as the string
`"ERROR: " ++ str(e)`, so the function is total and returns a plain
string on every input (in-memory `io.BytesIO` is used for `docx`,
no temporary file). -/
def extract_text_app3 (file : FileData) (file_type : String) : String :=
  if file_type = "txt" then
    match file.utf8 with
    | .ok s => s
    | .error e => "ERROR: " ++ e
  else if file_type = "pdf" then
    match file.pdfPages with
    | .ok pages => pages.foldl (fun acc p => acc ++ p.getD "") ""
    | .error e => "ERROR: " ++ e
  else if file_type = "md" then
    match file.utf8 with
    | .ok s => s
    | .error e => "ERROR: " ++ e
  else if file_type = "docx" then
    match file.docxParas with
    | .ok paras => String.intercalate "\n" paras
    | .error e => "ERROR: " ++ e
  else ""

/-- Embedding of `get_file_type`, identical in `app2.py` (lines 31-42) and `app3.py`
(lines 32-43): lower-case the filename and test the four recognized
extensions in order, defaulting to the empty tag. -/
def get_file_type (filename : String) : String :=
  let f := strLower filename
  if strEndsWith f ".txt" then "txt"
  else if strEndsWith f ".pdf" then "pdf"
  else if strEndsWith f ".md" then "md"
  else if strEndsWith f ".docx" then "docx"
  else ""

/-- The five prompt stages.  `app2.py` runs all five; `app3.py` omits
`resumeRewrite`. -/
inductive Stage where
  | resumeAnalysis
  | jobAnalysis
  | gapAnalysis
  | resumeRewrite
  | coverLetter
deriving DecidableEq

/-- One user-visible or external effect of a button-click run, in the order
it happens.  `genCall` is a call to the external text-generation service
(an `LLMChain.run` invocation) together with the named input variables it
is given; `output` is a rendered stage result (`st.subheader` + `st.code`
or `st.write`); `download` is a `st.download_button`; `warn`/`errorMsg`
are `st.warning`/`st.error`; `uncaught` is an exception escaping the
script (Streamlit's top-level exception display, carrying only `str(e)`,
no stage tag); `success` is `st.success`. -/
inductive Event where
  | warn (msg : String)
  | errorMsg (msg : String)
  | genCall (s : Stage) (vars : List (String × String))
  | output (s : Stage) (text : String)
  | download (filename : String) (text : String)
  | uncaught (msg : String)
  | success
deriving DecidableEq

/-- The five-stage chain sequence of `app2.py` (lines 177-215), starting
from the two extracted texts.  Each `chain.run(...)` call is a `genCall`
with exactly the keyword arguments the source passes; its result is
rendered immediately (`output`, plus `download` for the rewrite and cover
letter).  No `try` surrounds these calls: a generation failure escapes as
an uncaught exception and ends the script, with everything rendered so
far still on the page. -/
def app2_pipeline (resume_text job_desc_text : String)
    (gen : Stage → List (String × String) → Except String String) :
    List Event :=
  let v1 := [("resume", resume_text)]
  let c1 := [Event.genCall .resumeAnalysis v1]
  match gen .resumeAnalysis v1 with
  | .error e => c1 ++ [.uncaught e]
  | .ok resume_info =>
    let v2 := [("job_desc", job_desc_text)]
    let c2 := c1 ++ [.output .resumeAnalysis resume_info, .genCall .jobAnalysis v2]
    match gen .jobAnalysis v2 with
    | .error e => c2 ++ [.uncaught e]
    | .ok job_requirements =>
      let v3 := [("resume_info", resume_info), ("job_requirements", job_requirements)]
      let c3 := c2 ++ [.output .jobAnalysis job_requirements, .genCall .gapAnalysis v3]
      match gen .gapAnalysis v3 with
      | .error e => c3 ++ [.uncaught e]
      | .ok gap_analysis =>
        let v4 := [("resume", resume_text), ("job_desc", job_desc_text),
                   ("gap_analysis", gap_analysis)]
        let c4 := c3 ++ [.output .gapAnalysis gap_analysis, .genCall .resumeRewrite v4]
        match gen .resumeRewrite v4 with
        | .error e => c4 ++ [.uncaught e]
        | .ok modified_resume =>
          let v5 := [("resume_info", resume_info), ("job_requirements", job_requirements),
                     ("gap_analysis", gap_analysis)]
          let c5 := c4 ++ [.output .resumeRewrite modified_resume,
                           .download "modified_resume.txt" modified_resume,
                           .genCall .coverLetter v5]
          match gen .coverLetter v5 with
          | .error e => c5 ++ [.uncaught e]
          | .ok cover_letter =>
            c5 ++ [.output .coverLetter cover_letter,
                   .download "cover_letter.txt" cover_letter, .success]

/-- The four-stage chain sequence of `app3.py` (lines 169-217).  Each
`chain.run(...)` call sits in its own `try`: on failure an `st.error`
message naming the stage (and `str(e)`) is shown and the script stops,
with everything rendered so far still on the page. -/
def app3_pipeline (resume_text job_desc_text : String)
    (gen : Stage → List (String × String) → Except String String) :
    List Event :=
  let v1 := [("resume", resume_text)]
  let c1 := [Event.genCall .resumeAnalysis v1]
  match gen .resumeAnalysis v1 with
  | .error e => c1 ++ [.errorMsg ("LLM error while analyzing resume: " ++ e)]
  | .ok resume_info =>
    let v2 := [("job_desc", job_desc_text)]
    let c2 := c1 ++ [.output .resumeAnalysis resume_info, .genCall .jobAnalysis v2]
    match gen .jobAnalysis v2 with
    | .error e => c2 ++ [.errorMsg ("LLM error while analyzing job description: " ++ e)]
    | .ok job_requirements =>
      let v3 := [("resume_info", resume_info), ("job_requirements", job_requirements)]
      let c3 := c2 ++ [.output .jobAnalysis job_requirements, .genCall .gapAnalysis v3]
      match gen .gapAnalysis v3 with
      | .error e => c3 ++ [.errorMsg ("LLM error during gap analysis: " ++ e)]
      | .ok gap_analysis =>
        let v4 := [("resume_info", resume_info), ("job_requirements", job_requirements),
                   ("gap_analysis", gap_analysis)]
        let c4 := c3 ++ [.output .gapAnalysis gap_analysis, .genCall .coverLetter v4]
        match gen .coverLetter v4 with
        | .error e => c4 ++ [.errorMsg ("LLM error while generating cover letter: " ++ e)]
        | .ok cover_letter =>
          c4 ++ [.output .coverLetter cover_letter,
                 .download "cover_letter.txt" cover_letter, .success]

/-- The `st.warning` text of `app2.py` line 62. -/
def app2MissingMsg : String :=
  "Please upload both files and provide your OpenAI API key."

/-- The `st.error` text both variants show for blank extracted content. -/
def emptyContentMsg : String :=
  "One or both files are empty or could not be read. Please check your uploads."

/-- The button-click handler of `app2.py` (lines 60-215): require both
files and a non-empty API key (Python truthiness of the text input), else
warn and stop; extract both texts, reporting an extraction exception as
`st.error` and stopping; stop with the empty-content error when either
stripped text is empty; otherwise run the five-stage pipeline.  `api_key`
is the text-input value; the uploads are `Option`s. -/
def app2_run (resume_file job_desc_file : Option UploadedFile) (api_key : String)
    (gen : Stage → List (String × String) → Except String String) :
    List Event :=
  match resume_file, job_desc_file with
  | some rf, some jf =>
    if api_key = "" then [.warn app2MissingMsg]
    else
      let resume_type := get_file_type rf.name
      let job_type := get_file_type jf.name
      match extract_text_app2 rf.content resume_type with
      | .error e => [.errorMsg ("Error reading resume: " ++ e.message)]
      | .ok resume_text =>
        match extract_text_app2 jf.content job_type with
        | .error e => [.errorMsg ("Error reading job description: " ++ e.message)]
        | .ok job_desc_text =>
          if pyStrip resume_text = "" ∨ pyStrip job_desc_text = "" then
            [.errorMsg emptyContentMsg]
          else
            app2_pipeline resume_text job_desc_text gen
  | _, _ => [.warn app2MissingMsg]

/-- The button-click handler of `app3.py` (lines 81-217): require both
files, else warn and stop; extract both texts (total, error-string
encoded); stop with an error when either text starts with `"ERROR:"`;
stop with the empty-content error when either stripped text is empty;
load the credential from `st.secrets` (the `Except.error` carries the
exception text when the secret is absent), stopping with a credential
error before any chain is built; otherwise run the four-stage pipeline. -/
def app3_run (resume_file job_desc_file : Option UploadedFile)
    (secrets : Except String String)
    (gen : Stage → List (String × String) → Except String String) :
    List Event :=
  match resume_file, job_desc_file with
  | some rf, some jf =>
    let resume_type := get_file_type rf.name
    let job_type := get_file_type jf.name
    let resume_text := extract_text_app3 rf.content resume_type
    let job_desc_text := extract_text_app3 jf.content job_type
    if strStartsWith resume_text "ERROR:" then
      [.errorMsg ("Error reading resume: " ++ resume_text)]
    else if strStartsWith job_desc_text "ERROR:" then
      [.errorMsg ("Error reading job description: " ++ job_desc_text)]
    else if pyStrip resume_text = "" ∨ pyStrip job_desc_text = "" then
      [.errorMsg emptyContentMsg]
    else
      match secrets with
      | .error e => [.errorMsg ("Failed to load OpenAI API key from secrets: " ++ e)]
      | .ok _ => app3_pipeline resume_text job_desc_text gen
  | _, _ => [.warn "Please upload both files."]

/-- A generation capability that fails exactly on stage `k` with message
`e` and otherwise answers with `g`. -/
def failAt (k : Stage) (e : String)
    (g : Stage → List (String × String) → String) :
    Stage → List (String × String) → Except String String :=
  fun s v => if s = k then .error e else .ok (g s v)

/-- The trace `app2.py` produces when generation fails exactly at stage
`k`: the earlier stages' outputs are already rendered, the failing call
appears, and the run ends with the uncaught exception (no stage tag). -/
def app2_failTrace (k : Stage) (r j e : String)
    (g : Stage → List (String × String) → String) : List Event :=
  let ri := g .resumeAnalysis [("resume", r)]
  let jr := g .jobAnalysis [("job_desc", j)]
  let ga := g .gapAnalysis [("resume_info", ri), ("job_requirements", jr)]
  let mr := g .resumeRewrite [("resume", r), ("job_desc", j), ("gap_analysis", ga)]
  match k with
  | .resumeAnalysis => [.genCall .resumeAnalysis [("resume", r)], .uncaught e]
  | .jobAnalysis =>
      [.genCall .resumeAnalysis [("resume", r)], .output .resumeAnalysis ri,
       .genCall .jobAnalysis [("job_desc", j)], .uncaught e]
  | .gapAnalysis =>
      [.genCall .resumeAnalysis [("resume", r)], .output .resumeAnalysis ri,
       .genCall .jobAnalysis [("job_desc", j)], .output .jobAnalysis jr,
       .genCall .gapAnalysis [("resume_info", ri), ("job_requirements", jr)],
       .uncaught e]
  | .resumeRewrite =>
      [.genCall .resumeAnalysis [("resume", r)], .output .resumeAnalysis ri,
       .genCall .jobAnalysis [("job_desc", j)], .output .jobAnalysis jr,
       .genCall .gapAnalysis [("resume_info", ri), ("job_requirements", jr)],
       .output .gapAnalysis ga,
       .genCall .resumeRewrite [("resume", r), ("job_desc", j), ("gap_analysis", ga)],
       .uncaught e]
  | .coverLetter =>
      [.genCall .resumeAnalysis [("resume", r)], .output .resumeAnalysis ri,
       .genCall .jobAnalysis [("job_desc", j)], .output .jobAnalysis jr,
       .genCall .gapAnalysis [("resume_info", ri), ("job_requirements", jr)],
       .output .gapAnalysis ga,
       .genCall .resumeRewrite [("resume", r), ("job_desc", j), ("gap_analysis", ga)],
       .output .resumeRewrite mr, .download "modified_resume.txt" mr,
       .genCall .coverLetter [("resume_info", ri), ("job_requirements", jr),
                              ("gap_analysis", ga)],
       .uncaught e]

/-- The trace `app3.py` produces when generation fails exactly at stage
`k`: the earlier stages' outputs are already rendered and the run ends
with an `st.error` message that names the failing stage and carries
`str(e)`.  `app3.py` has no rewrite stage, so `failAt .resumeRewrite`
never fires there and the run completes. -/
def app3_failTrace (k : Stage) (r j e : String)
    (g : Stage → List (String × String) → String) : List Event :=
  let ri := g .resumeAnalysis [("resume", r)]
  let jr := g .jobAnalysis [("job_desc", j)]
  let ga := g .gapAnalysis [("resume_info", ri), ("job_requirements", jr)]
  let cl := g .coverLetter [("resume_info", ri), ("job_requirements", jr),
                            ("gap_analysis", ga)]
  match k with
  | .resumeAnalysis =>
      [.genCall .resumeAnalysis [("resume", r)],
       .errorMsg ("LLM error while analyzing resume: " ++ e)]
  | .jobAnalysis =>
      [.genCall .resumeAnalysis [("resume", r)], .output .resumeAnalysis ri,
       .genCall .jobAnalysis [("job_desc", j)],
       .errorMsg ("LLM error while analyzing job description: " ++ e)]
  | .gapAnalysis =>
      [.genCall .resumeAnalysis [("resume", r)], .output .resumeAnalysis ri,
       .genCall .jobAnalysis [("job_desc", j)], .output .jobAnalysis jr,
       .genCall .gapAnalysis [("resume_info", ri), ("job_requirements", jr)],
       .errorMsg ("LLM error during gap analysis: " ++ e)]
  | .coverLetter =>
      [.genCall .resumeAnalysis [("resume", r)], .output .resumeAnalysis ri,
       .genCall .jobAnalysis [("job_desc", j)], .output .jobAnalysis jr,
       .genCall .gapAnalysis [("resume_info", ri), ("job_requirements", jr)],
       .output .gapAnalysis ga,
       .genCall .coverLetter [("resume_info", ri), ("job_requirements", jr),
                              ("gap_analysis", ga)],
       .errorMsg ("LLM error while generating cover letter: " ++ e)]
  | .resumeRewrite =>
      [.genCall .resumeAnalysis [("resume", r)], .output .resumeAnalysis ri,
       .genCall .jobAnalysis [("job_desc", j)], .output .jobAnalysis jr,
       .genCall .gapAnalysis [("resume_info", ri), ("job_requirements", jr)],
       .output .gapAnalysis ga,
       .genCall .coverLetter [("resume_info", ri), ("job_requirements", jr),
                              ("gap_analysis", ga)],
       .output .coverLetter cl, .download "cover_letter.txt" cl, .success]

/-- A generation capability failing exactly on the gap-analysis stage. -/
def genFailGap : Stage → List (String × String) → Except String String :=
  fun s _ => if s = Stage.gapAnalysis then .error "boom" else .ok "out"

/-- A generation capability that always answers `"out"`. -/
def genOkConst : Stage → List (String × String) → Except String String :=
  fun _ _ => .ok "out"

/-- A byte stream on which `docx.Document` raises (a corrupt `.docx`). -/
def corruptDocxFile : FileData := ⟨.ok "", .ok [], .error "File is not a zip file"⟩

/-- A well-formed file every parser accepts. -/
def plainFile : FileData := ⟨.ok "hello", .ok [some "hello"], .ok ["hello"]⟩

/-- A byte stream on which every parser raises with message `"bad"`. -/
def corruptAllFile : FileData := ⟨.error "bad", .error "bad", .error "bad"⟩

/-- A well-formed three-page pdf whose middle page has no extractable
text. -/
def pdfSampleFile : FileData := ⟨.ok "", .ok [some "a", none, some "b"], .ok []⟩

/-- A plain-text upload with well-formed non-blank content. -/
def plainTxtFile : UploadedFile := ⟨"r.txt", plainFile⟩

/-- A blank but well-formed plain-text stream. -/
def blankFileData : FileData := ⟨.ok "", .ok [], .ok []⟩

/-- A blank but well-formed plain-text upload. -/
def blankTxtFile : UploadedFile := ⟨"r.txt", blankFileData⟩

/-- A genuine plain-text upload whose visible content happens to begin
with `"ERROR:"`. -/
def errLookalikeFile : UploadedFile :=
  ⟨"r.txt", ⟨.ok "ERROR: this is genuine resume text", .ok [], .ok []⟩⟩

/-- An upload with an unrecognized filename extension. -/
def datFile : UploadedFile := ⟨"resume.dat", plainFile⟩

/-- C1 counterexample: when generation fails at stage 3 (gap analysis) in
`app2.py`, the run's visible trace still contains the already-rendered
outputs of stages 1 and 2 — results computed before the failing stage are
not discarded from the user-visible output path — and the terminal event
is an uncaught exception carrying only the cause, with no stage tag. -/
theorem stage_failure_keeps_prior_outputs :
    app2_pipeline "R" "J" genFailGap =
      [.genCall .resumeAnalysis [("resume", "R")],
       .output .resumeAnalysis "out",
       .genCall .jobAnalysis [("job_desc", "J")],
       .output .jobAnalysis "out",
       .genCall .gapAnalysis [("resume_info", "out"), ("job_requirements", "out")],
       .uncaught "boom"] ∧
    Event.output Stage.resumeAnalysis "out" ∈ app2_pipeline "R" "J" genFailGap ∧
    Event.output Stage.jobAnalysis "out" ∈ app2_pipeline "R" "J" genFailGap := by
  exact ⟨by decide, by decide, by decide⟩

/-- C1 amended: when the generation capability fails exactly at stage `k`,
each variant makes no generation call for any stage after `k`, produces
no output for stage `k` or later, and ends with a single failure event —
in `app3.py` an error message naming stage `k` and its cause, in
`app2.py` an uncaught exception carrying only the cause — while all
outputs rendered before stage `k` remain in the visible trace (they are
not discarded).  Stated as an exact characterization of both traces. -/
theorem stage_failure_aborts_rest (r j e : String) (k : Stage)
    (g : Stage → List (String × String) → String) :
    app2_pipeline r j (failAt k e g) = app2_failTrace k r j e g ∧
    app3_pipeline r j (failAt k e g) = app3_failTrace k r j e g := by
  cases k <;> exact ⟨rfl, rfl⟩

/-- C2 (code bug in `app2.py`): on a `docx` upload whose bytes make
`docx.Document` raise, `extract_text` propagates the exception with the
`NamedTemporaryFile(delete=False)` file still on disk — `os.remove` is
only reached after a successful parse, so the temporary file survives
the exceptional exit path, contrary to the specification. -/
theorem docx_tempfile_survives_parse_failure :
    extract_text_app2_fs corruptDocxFile "docx" =
      (.error (.docxError "File is not a zip file"), true) ∧
    (extract_text_app2_fs corruptDocxFile "docx").2 = true :=
  ⟨rfl, rfl⟩

/-- C3: given any two texts and a working generation capability, both
variants run the stages in the fixed order resume-analysis, job-analysis,
gap-analysis, (resume-rewrite in `app2.py` only), cover-letter, and each
call binds exactly the documented input variables: `resume` for
resume-analysis, `job_desc` for job-analysis, `resume_info` and
`job_requirements` (never raw document text) for gap-analysis, `resume`,
`job_desc` and `gap_analysis` for the rewrite, and `resume_info`,
`job_requirements` and `gap_analysis` for the cover letter. -/
theorem stage_order_and_bindings (r j : String)
    (g : Stage → List (String × String) → String) :
    app2_pipeline r j (fun s v => .ok (g s v)) =
      (let ri := g .resumeAnalysis [("resume", r)]
       let jr := g .jobAnalysis [("job_desc", j)]
       let ga := g .gapAnalysis [("resume_info", ri), ("job_requirements", jr)]
       let mr := g .resumeRewrite [("resume", r), ("job_desc", j), ("gap_analysis", ga)]
       let cl := g .coverLetter [("resume_info", ri), ("job_requirements", jr),
                                 ("gap_analysis", ga)]
       [.genCall .resumeAnalysis [("resume", r)], .output .resumeAnalysis ri,
        .genCall .jobAnalysis [("job_desc", j)], .output .jobAnalysis jr,
        .genCall .gapAnalysis [("resume_info", ri), ("job_requirements", jr)],
        .output .gapAnalysis ga,
        .genCall .resumeRewrite [("resume", r), ("job_desc", j), ("gap_analysis", ga)],
        .output .resumeRewrite mr, .download "modified_resume.txt" mr,
        .genCall .coverLetter [("resume_info", ri), ("job_requirements", jr),
                               ("gap_analysis", ga)],
        .output .coverLetter cl, .download "cover_letter.txt" cl, .success]) ∧
    app3_pipeline r j (fun s v => .ok (g s v)) =
      (let ri := g .resumeAnalysis [("resume", r)]
       let jr := g .jobAnalysis [("job_desc", j)]
       let ga := g .gapAnalysis [("resume_info", ri), ("job_requirements", jr)]
       let cl := g .coverLetter [("resume_info", ri), ("job_requirements", jr),
                                 ("gap_analysis", ga)]
       [.genCall .resumeAnalysis [("resume", r)], .output .resumeAnalysis ri,
        .genCall .jobAnalysis [("job_desc", j)], .output .jobAnalysis jr,
        .genCall .gapAnalysis [("resume_info", ri), ("job_requirements", jr)],
        .output .gapAnalysis ga,
        .genCall .coverLetter [("resume_info", ri), ("job_requirements", jr),
                               ("gap_analysis", ga)],
        .output .coverLetter cl, .download "cover_letter.txt" cl, .success]) :=
  ⟨rfl, rfl⟩

/-- C4 counterexample: on the unrecognized format tag `"rtf"` both
variants silently return empty text; neither returns an
`UnsupportedFormat` error (no such error exists anywhere in the code). -/
theorem unrecognized_format_silent_empty :
    extract_text_app2 plainFile "rtf" = .ok "" ∧
    extract_text_app3 plainFile "rtf" = "" :=
  ⟨rfl, rfl⟩

/-- C4 amended: for every format tag outside the four recognized ones,
`extract_text` returns empty text (a non-fatal empty success) in both
variants, rather than an explicit `UnsupportedFormat` error. -/
theorem unrecognized_format_returns_empty (f : FileData) (ft : String)
    (h1 : ft ≠ "txt") (h2 : ft ≠ "md") (h3 : ft ≠ "pdf") (h4 : ft ≠ "docx") :
    extract_text_app2 f ft = .ok "" ∧ extract_text_app3 f ft = "" := by
  constructor <;> simp [extract_text_app2, extract_text_app3, h1, h2, h3, h4]

/-- Witness for the amended C4 at the concrete tag `"rtf"`. -/
theorem unrecognized_format_returns_empty_witness :
    extract_text_app2 plainFile "rtf" = .ok "" ∧
    extract_text_app3 plainFile "rtf" = "" :=
  unrecognized_format_returns_empty plainFile "rtf"
    (by decide) (by decide) (by decide) (by decide)

/-- C5: for every supported format tag, a byte stream whose parser fails
yields an explicit error: in `app2.py` an exception tagged with the
failing library (`decodeError` for an invalid UTF-8 sequence under
`txt`/`md`), in `app3.py` the string `"ERROR: " ++ str(e)` — which is
never the empty string, so a corrupted stream is never conflated with a
valid empty document. -/
theorem corrupted_input_reports_error (f : FileData) (m : String) :
    (f.utf8 = .error m →
       extract_text_app2 f "txt" = .error (.decodeError m) ∧
       extract_text_app2 f "md" = .error (.decodeError m) ∧
       extract_text_app3 f "txt" = "ERROR: " ++ m ∧
       extract_text_app3 f "md" = "ERROR: " ++ m) ∧
    (f.pdfPages = .error m →
       extract_text_app2 f "pdf" = .error (.pdfError m) ∧
       extract_text_app3 f "pdf" = "ERROR: " ++ m) ∧
    (f.docxParas = .error m →
       extract_text_app2 f "docx" = .error (.docxError m) ∧
       extract_text_app3 f "docx" = "ERROR: " ++ m) ∧
    "ERROR: " ++ m ≠ "" := by
  refine ⟨fun h => ?_, fun h => ?_, fun h => ?_, fun h => ?_⟩
  · refine ⟨?_, ?_, ?_, ?_⟩ <;> simp [extract_text_app2, extract_text_app3, h]
  · exact ⟨by simp [extract_text_app2, h], by simp [extract_text_app3, h]⟩
  · exact ⟨by simp [extract_text_app2, h], by simp [extract_text_app3, h]⟩
  · have h2 := congrArg String.data h
    simp [String.data_append] at h2

/-- Witness for C5 at a concrete stream on which all parsers fail. -/
theorem corrupted_input_reports_error_witness :
    extract_text_app2 corruptAllFile "txt" = .error (.decodeError "bad") ∧
    extract_text_app2 corruptAllFile "pdf" = .error (.pdfError "bad") ∧
    extract_text_app2 corruptAllFile "docx" = .error (.docxError "bad") ∧
    extract_text_app3 corruptAllFile "txt" = "ERROR: " ++ "bad" :=
  ⟨((corrupted_input_reports_error corruptAllFile "bad").1 rfl).1,
   ((corrupted_input_reports_error corruptAllFile "bad").2.1 rfl).1,
   ((corrupted_input_reports_error corruptAllFile "bad").2.2.1 rfl).1,
   ((corrupted_input_reports_error corruptAllFile "bad").1 rfl).2.2.1⟩

/-- C7: for a well-formed pdf-format document, both variants return the
concatenation of the per-page extracted texts in page order, a page with
no extractable text (`extract_text()` returning `None`) contributing the
empty string and raising no error. -/
theorem pdf_concatenates_pages (f : FileData) (pages : List (Option String))
    (h : f.pdfPages = .ok pages) :
    extract_text_app2 f "pdf" = .ok (String.join (pages.map fun p => p.getD "")) ∧
    extract_text_app3 f "pdf" = String.join (pages.map fun p => p.getD "") := by
  constructor <;>
    simp [extract_text_app2, extract_text_app3, h, String.join, List.foldl_map]

/-- Witness for C7 at a concrete three-page pdf. -/
theorem pdf_concatenates_pages_witness :
    extract_text_app2 pdfSampleFile "pdf" =
      .ok (String.join ([some "a", none, some "b"].map fun p => p.getD "")) ∧
    extract_text_app3 pdfSampleFile "pdf" =
      String.join ([some "a", none, some "b"].map fun p => p.getD "") :=
  pdf_concatenates_pages pdfSampleFile [some "a", none, some "b"] rfl

/-- C6: each of the three absences independently stops the run before any
call to the generation service.  In `app2.py` a missing resume upload,
missing job-description upload, or empty API key each produce only the
missing-input warning; in `app3.py` a missing upload produces only the
upload warning, and an absent secret produces only the credential error
message — in every case the trace is the single warning or error, so no
generation call is ever made and no stage runs. -/
theorem missing_inputs_block_pipeline :
    (∀ jf key gen, app2_run none jf key gen = [Event.warn app2MissingMsg]) ∧
    (∀ rf key gen, app2_run rf none key gen = [Event.warn app2MissingMsg]) ∧
    (∀ rf jf gen, app2_run rf jf "" gen = [Event.warn app2MissingMsg]) ∧
    (∀ jf secrets gen, app3_run none jf secrets gen =
        [Event.warn "Please upload both files."]) ∧
    (∀ rf secrets gen, app3_run rf none secrets gen =
        [Event.warn "Please upload both files."]) ∧
    (∀ rf jf gen e,
       strStartsWith (extract_text_app3 rf.content (get_file_type rf.name))
           "ERROR:" = false →
       strStartsWith (extract_text_app3 jf.content (get_file_type jf.name))
           "ERROR:" = false →
       pyStrip (extract_text_app3 rf.content (get_file_type rf.name)) ≠ "" →
       pyStrip (extract_text_app3 jf.content (get_file_type jf.name)) ≠ "" →
       app3_run (some rf) (some jf) (.error e) gen =
         [Event.errorMsg ("Failed to load OpenAI API key from secrets: " ++ e)]) := by
  refine ⟨fun jf key gen => ?_, fun rf key gen => ?_, fun rf jf gen => ?_,
          fun jf secrets gen => ?_, fun rf secrets gen => ?_,
          fun rf jf gen e h1 h2 h3 h4 => ?_⟩
  · cases jf <;> rfl
  · cases rf <;> rfl
  · cases rf <;> cases jf <;> rfl
  · cases jf <;> rfl
  · cases rf <;> rfl
  · simp [app3_run, h1, h2, h3, h4]

/-- Witness for C6's credential conjunct at concrete uploads with
well-formed non-blank content and an absent secret. -/
theorem missing_inputs_block_pipeline_witness :
    app3_run (some plainTxtFile) (some plainTxtFile) (.error "No secrets found")
        genOkConst =
      [Event.errorMsg ("Failed to load OpenAI API key from secrets: " ++
        "No secrets found")] :=
  missing_inputs_block_pipeline.2.2.2.2.2 plainTxtFile plainTxtFile genOkConst
    "No secrets found" (by decide) (by decide) (by decide) (by decide)

/-- C8: `extract` returns empty text without raising on a blank
well-formed document, and a run whose extraction succeeds with text that
is blank after stripping reports only the empty-content error and makes
no generation call, in both variants. -/
theorem blank_content_stops_run :
    (∀ f : FileData, f.utf8 = .ok "" →
       extract_text_app2 f "txt" = .ok "" ∧ extract_text_app3 f "txt" = "") ∧
    (∀ rf jf key gen r j, key ≠ "" →
       extract_text_app2 rf.content (get_file_type rf.name) = .ok r →
       extract_text_app2 jf.content (get_file_type jf.name) = .ok j →
       (pyStrip r = "" ∨ pyStrip j = "") →
       app2_run (some rf) (some jf) key gen = [Event.errorMsg emptyContentMsg]) ∧
    (∀ rf jf secrets gen,
       strStartsWith (extract_text_app3 rf.content (get_file_type rf.name))
           "ERROR:" = false →
       strStartsWith (extract_text_app3 jf.content (get_file_type jf.name))
           "ERROR:" = false →
       (pyStrip (extract_text_app3 rf.content (get_file_type rf.name)) = "" ∨
        pyStrip (extract_text_app3 jf.content (get_file_type jf.name)) = "") →
       app3_run (some rf) (some jf) secrets gen =
         [Event.errorMsg emptyContentMsg]) := by
  refine ⟨fun f h => ?_, fun rf jf key gen r j hkey hr hj hb => ?_,
          fun rf jf secrets gen h1 h2 hb => ?_⟩
  · exact ⟨by simp [extract_text_app2, h], by simp [extract_text_app3, h]⟩
  · rcases hb with hb | hb <;> simp [app2_run, hkey, hr, hj, hb]
  · rcases hb with hb | hb <;> simp [app3_run, h1, h2, hb]

/-- Witness for C8 at blank well-formed uploads. -/
theorem blank_content_stops_run_witness :
    (extract_text_app2 blankFileData "txt" = .ok "" ∧
     extract_text_app3 blankFileData "txt" = "") ∧
    app2_run (some blankTxtFile) (some blankTxtFile) "k" genOkConst =
      [Event.errorMsg emptyContentMsg] ∧
    app3_run (some blankTxtFile) (some blankTxtFile) (.ok "k") genOkConst =
      [Event.errorMsg emptyContentMsg] :=
  ⟨blank_content_stops_run.1 blankFileData rfl,
   blank_content_stops_run.2.1 blankTxtFile blankTxtFile "k" genOkConst "" ""
     (by decide) rfl rfl (Or.inl (by decide)),
   blank_content_stops_run.2.2 blankTxtFile blankTxtFile (.ok "k") genOkConst
     (by decide) (by decide) (Or.inl (by decide))⟩

/-- C9: in `app3.py` every internal extraction failure is encoded as a
string beginning with `"ERROR: "` (the function is total, returning a
plain string on every input), and the caller classifies extraction
failure by testing that prefix — so a run whose resume text starts with
`"ERROR:"` is stopped as an extraction failure even when extraction in
fact succeeded on a genuine document. -/
theorem app3_error_encoding_and_misclassification :
    (∀ (f : FileData) (m : String), f.utf8 = .error m →
       extract_text_app3 f "txt" = "ERROR: " ++ m ∧
       extract_text_app3 f "md" = "ERROR: " ++ m) ∧
    (∀ (f : FileData) (m : String), f.pdfPages = .error m →
       extract_text_app3 f "pdf" = "ERROR: " ++ m) ∧
    (∀ (f : FileData) (m : String), f.docxParas = .error m →
       extract_text_app3 f "docx" = "ERROR: " ++ m) ∧
    (∀ rf jf secrets gen,
       strStartsWith (extract_text_app3 rf.content (get_file_type rf.name))
           "ERROR:" = true →
       app3_run (some rf) (some jf) secrets gen =
         [Event.errorMsg ("Error reading resume: " ++
            extract_text_app3 rf.content (get_file_type rf.name))]) := by
  refine ⟨fun f m h => ?_, fun f m h => ?_, fun f m h => ?_,
          fun rf jf secrets gen h => ?_⟩
  · exact ⟨by simp [extract_text_app3, h], by simp [extract_text_app3, h]⟩
  · simp [extract_text_app3, h]
  · simp [extract_text_app3, h]
  · simp [app3_run, h]

/-- Witness for C9: the error-string encoding at a corrupt stream, and
the misclassification of a genuine document starting with `"ERROR:"`. -/
theorem app3_error_encoding_and_misclassification_witness :
    (extract_text_app3 corruptAllFile "txt" = "ERROR: " ++ "bad" ∧
     extract_text_app3 corruptAllFile "md" = "ERROR: " ++ "bad") ∧
    app3_run (some errLookalikeFile) (some plainTxtFile) (.ok "k") genOkConst =
      [Event.errorMsg ("Error reading resume: " ++
         extract_text_app3 errLookalikeFile.content
           (get_file_type errLookalikeFile.name))] :=
  ⟨app3_error_encoding_and_misclassification.1 corruptAllFile "bad" rfl,
   app3_error_encoding_and_misclassification.2.2.2 errLookalikeFile plainTxtFile
     (.ok "k") genOkConst (by decide)⟩

/-- Evaluation lemma: `extract_text` on the empty format tag returns empty text (app2). -/
theorem extract_app2_empty_tag (f : FileData) : extract_text_app2 f "" = .ok "" := rfl

/-- Evaluation lemma: `extract_text` on the empty format tag returns empty text (app3). -/
theorem extract_app3_empty_tag (f : FileData) : extract_text_app3 f "" = "" := rfl

/-- C10: the format tag is computed from the lower-cased filename alone
and is always one of the four recognized tags or the empty tag; a
filename whose lower-cased form ends in none of the four recognized
extensions receives the empty tag; and a run whose uploads both carry the
empty tag extracts empty text and stops with the empty-content error
message (no unsupported-format error exists), before any generation
call, in both variants. -/
theorem file_type_from_suffix :
    (∀ name, get_file_type name ∈ ["txt", "pdf", "md", "docx", ""]) ∧
    (∀ n1 n2, strLower n1 = strLower n2 → get_file_type n1 = get_file_type n2) ∧
    (∀ name, strEndsWith (strLower name) ".txt" = false →
       strEndsWith (strLower name) ".pdf" = false →
       strEndsWith (strLower name) ".md" = false →
       strEndsWith (strLower name) ".docx" = false →
       get_file_type name = "") ∧
    (∀ rf jf key gen, key ≠ "" →
       get_file_type rf.name = "" → get_file_type jf.name = "" →
       app2_run (some rf) (some jf) key gen = [Event.errorMsg emptyContentMsg]) ∧
    (∀ rf jf secrets gen,
       get_file_type rf.name = "" → get_file_type jf.name = "" →
       app3_run (some rf) (some jf) secrets gen =
         [Event.errorMsg emptyContentMsg]) := by
  refine ⟨fun name => ?_, fun n1 n2 h => ?_, fun name h1 h2 h3 h4 => ?_,
          fun rf jf key gen hkey h1 h2 => ?_,
          fun rf jf secrets gen h1 h2 => ?_⟩
  · simp only [get_file_type]
    split_ifs <;> simp
  · simp [get_file_type, h]
  · simp [get_file_type, h1, h2, h3, h4]
  · simp [app2_run, hkey, h1, h2, extract_app2_empty_tag, pyStrip]
  · simp [app3_run, h1, h2, extract_app3_empty_tag, strStartsWith, pyStrip]

/-- Witness for C10 at concrete filenames and uploads. -/
theorem file_type_from_suffix_witness :
    get_file_type "A.TXT" = get_file_type "a.txt" ∧
    get_file_type "resume.dat" = "" ∧
    app2_run (some datFile) (some datFile) "k" genOkConst =
      [Event.errorMsg emptyContentMsg] ∧
    app3_run (some datFile) (some datFile) (.ok "k") genOkConst =
      [Event.errorMsg emptyContentMsg] :=
  ⟨file_type_from_suffix.2.1 "A.TXT" "a.txt" (by decide),
   file_type_from_suffix.2.2.1 "resume.dat"
     (by decide) (by decide) (by decide) (by decide),
   file_type_from_suffix.2.2.2.1 datFile datFile "k" genOkConst
     (by decide) (by decide) (by decide),
   file_type_from_suffix.2.2.2.2 datFile datFile (.ok "k") genOkConst
     (by decide) (by decide)⟩
